import Mathlib

/-!
Verification of the fitness-tracker module (`homework.py`).

The program is embedded shallowly: Python floats become exact rationals
(`ℚ`), Python exceptions become an `Except PyErr` result, the class
hierarchy `Training` / `Running` / `SportsWalking` / `Swimming` becomes an
inductive type, and `str.format` on the message template becomes a small
template interpreter over the template's character list.
-/

namespace FitnessTracker

/-- Python exceptions that the program can raise. -/
inductive PyErr where
  | zeroDivision : PyErr
  | notImplemented : PyErr
  | typeError : PyErr
deriving DecidableEq, Repr

/-- Python float division `x / y`: raises `ZeroDivisionError` when `y = 0`. -/
def fdiv (x y : ℚ) : Except PyErr ℚ :=
  if y = 0 then .error .zeroDivision else .ok (x / y)

/-- Python float floor division `x // y`: `floor (x / y)` as a number,
raising `ZeroDivisionError` when `y = 0`. -/
def ffloordiv (x y : ℚ) : Except PyErr ℚ :=
  if y = 0 then .error .zeroDivision else .ok ((⌊x / y⌋ : ℤ) : ℚ)

/-- `Training.LEN_STEP` class constant. -/
def LEN_STEP : ℚ := 0.65

/-- `Training.M_IN_KM` class constant. -/
def M_IN_KM : ℚ := 1000

/-- `Training.TOTTALLY_MINUTES_IN_HOURS` class constant. -/
def TOTTALLY_MINUTES_IN_HOURS : ℚ := 60

/-- `Running.COEFF_CALORIE_RUN_1` class constant. -/
def COEFF_CALORIE_RUN_1 : ℚ := 18

/-- `Running.COEFF_CALORIE_RUN_2` class constant. -/
def COEFF_CALORIE_RUN_2 : ℚ := 20

/-- `SportsWalking.COEFF_CALORIE_WALK_1` class constant. -/
def COEFF_CALORIE_WALK_1 : ℚ := 0.035

/-- `SportsWalking.COEFF_CALORIE_WALK_2` class constant. -/
def COEFF_CALORIE_WALK_2 : ℚ := 0.029

/-- `SportsWalking.COEFF_CALORIE_WALK_3` class constant (used as the
exponent in `speed ** 2`). -/
def COEFF_CALORIE_WALK_3 : ℕ := 2

/-- `Swimming.LEN_STEP` class constant (overrides the base step length). -/
def SWIMMING_LEN_STEP : ℚ := 1.38

/-- `Swimming.COEFF_CALORIE_SWIM_1` class constant. -/
def COEFF_CALORIE_SWIM_1 : ℚ := 1.1

/-- `Swimming.COEFF_CALORIE_SWIM_2` class constant. -/
def COEFF_CALORIE_SWIM_2 : ℚ := 2

/-- The `Training` class hierarchy: the bare base class and its three
concrete subclasses, each carrying its constructor fields. -/
inductive Training where
  | Base (action duration weight : ℚ)
  | Running (action duration weight : ℚ)
  | SportsWalking (action duration weight height : ℚ)
  | Swimming (action duration weight length_pool count_pool : ℚ)
deriving DecidableEq, Repr

/-- The shared `action` field. -/
def Training.action : Training → ℚ
  | .Base a _ _ => a
  | .Running a _ _ => a
  | .SportsWalking a _ _ _ => a
  | .Swimming a _ _ _ _ => a

/-- The shared `duration` field. -/
def Training.duration : Training → ℚ
  | .Base _ d _ => d
  | .Running _ d _ => d
  | .SportsWalking _ d _ _ => d
  | .Swimming _ d _ _ _ => d

/-- The shared `weight` field. -/
def Training.weight : Training → ℚ
  | .Base _ _ w => w
  | .Running _ _ w => w
  | .SportsWalking _ _ w _ => w
  | .Swimming _ _ w _ _ => w

/-- `get_distance`: `action * LEN_STEP / M_IN_KM`, where `Swimming`
overrides `LEN_STEP` with its own step constant. -/
def Training.get_distance : Training → ℚ
  | .Swimming a _ _ _ _ => a * SWIMMING_LEN_STEP / M_IN_KM
  | t => t.action * LEN_STEP / M_IN_KM

/-- `get_mean_speed`: the base formula `get_distance() / duration`;
`Swimming` overrides with `length_pool * count_pool / M_IN_KM / duration`. -/
def Training.get_mean_speed : Training → Except PyErr ℚ
  | .Swimming _ d _ lp cp => fdiv (lp * cp / M_IN_KM) d
  | t => fdiv t.get_distance t.duration

/-- `get_spent_calories`: raises `NotImplementedError` on the base class;
each concrete subclass overrides it with its own formula. -/
def Training.get_spent_calories : Training → Except PyErr ℚ
  | .Base _ _ _ => .error .notImplemented
  | .Running a d w => do
      let s ← (Training.Running a d w).get_mean_speed
      pure ((COEFF_CALORIE_RUN_1 * s - COEFF_CALORIE_RUN_2) * w / M_IN_KM
            * d * TOTTALLY_MINUTES_IN_HOURS)
  | .SportsWalking a d w h => do
      let s ← (Training.SportsWalking a d w h).get_mean_speed
      let q ← ffloordiv (s ^ COEFF_CALORIE_WALK_3) h
      pure ((COEFF_CALORIE_WALK_1 * w + q * COEFF_CALORIE_WALK_2 * w)
            * d * TOTTALLY_MINUTES_IN_HOURS)
  | .Swimming a d w lp cp => do
      let s ← (Training.Swimming a d w lp cp).get_mean_speed
      pure ((s + COEFF_CALORIE_SWIM_1) * COEFF_CALORIE_SWIM_2 * w)

/-- Rounding to the nearest integer, ties to even: the rounding Python
`format(x, ".3f")` applies to the scaled value. -/
def roundHalfEven (q : ℚ) : ℤ :=
  let n := ⌊q⌋
  let r := q - n
  if r < 1 / 2 then n
  else if 1 / 2 < r then n + 1
  else if n % 2 = 0 then n else n + 1

/-- Left-pad the fractional part to three digits. -/
def pad3 (n : ℕ) : String :=
  if n < 10 then "00" ++ toString n
  else if n < 100 then "0" ++ toString n
  else toString n

/-- Python `format(x, ".3f")`: render with exactly three digits after a
period decimal separator. -/
def format3 (q : ℚ) : String :=
  let m := roundHalfEven (q * 1000)
  let sign := if m < 0 ∨ (m = 0 ∧ q < 0) then "-" else ""
  let a := m.natAbs
  sign ++ toString (a / 1000) ++ "." ++ pad3 (a % 1000)

/-- A value substituted into the template: a string field or a float
field. -/
inductive FieldVal where
  | s (v : String)
  | f (v : ℚ)

/-- Render one `{...}` placeholder: split the inner text at `:` into a
field name and a format spec, look the name up, and apply the spec
(`".3f"` on floats, empty spec on strings — the only combinations the
template uses). -/
def renderField (env : List (String × FieldVal)) (inner : List Char) : String :=
  let name := inner.takeWhile (fun c => c ≠ ':')
  let spec := (inner.dropWhile (fun c => c ≠ ':')).drop 1
  match env.find? (fun p => p.1 == String.mk name) with
  | some (_, .s v) => if spec = [] then v else ""
  | some (_, .f v) => if spec = ['.', '3', 'f'] then format3 v else ""
  | none => ""

/-- Python `str.format` restricted to what the template needs: copy
characters through, and between `\x7b` and `\x7d` collect the placeholder
text (second argument) and substitute it. -/
def pyFormat (env : List (String × FieldVal)) :
    List Char → Option (List Char) → String
  | [], _ => ""
  | c :: rest, none =>
      if c = '{' then pyFormat env rest (some [])
      else String.singleton c ++ pyFormat env rest none
  | c :: rest, some acc =>
      if c = '}' then renderField env acc.reverse ++ pyFormat env rest none
      else pyFormat env rest (some (c :: acc))

/-- The `InfoMessage` dataclass: five data fields plus the message
template, whose default value is the fixed Russian-language template. -/
structure InfoMessage where
  training_type : String
  duration : ℚ
  distance : ℚ
  speed : ℚ
  calories : ℚ
  message_output : String :=
    "Тип тренировки: {training_type}; Длительность: {duration:.3f} ч.; Дистанция: {distance:.3f} км; Ср. скорость: {speed:.3f} км/ч; Потрачено ккал: {calories:.3f}."
deriving DecidableEq, Repr

/-- `InfoMessage.get_message`: `self.message_output.format(**asdict(self))`. -/
def InfoMessage.get_message (m : InfoMessage) : String :=
  pyFormat
    [("training_type", .s m.training_type),
     ("duration", .f m.duration),
     ("distance", .f m.distance),
     ("speed", .f m.speed),
     ("calories", .f m.calories),
     ("message_output", .s m.message_output)]
    m.message_output.data none

/-- `type(self).__name__`, the display label used by
`show_training_info`. -/
def Training.typeName : Training → String
  | .Base _ _ _ => "Training"
  | .Running _ _ _ => "Running"
  | .SportsWalking _ _ _ _ => "SportsWalking"
  | .Swimming _ _ _ _ _ => "Swimming"

/-- `show_training_info`: builds the `InfoMessage` from the variant name,
the duration, and the three computed values, propagating any exception
(Python evaluates the constructor arguments left to right). -/
def Training.show_training_info (t : Training) : Except PyErr InfoMessage := do
  let dist := t.get_distance
  let s ← t.get_mean_speed
  let c ← t.get_spent_calories
  pure { training_type := t.typeName, duration := t.duration,
         distance := dist, speed := s, calories := c }

/-- The result type of `read_package`: either a `Training` instance or the
plain error string the function returns on an unknown code. -/
inductive ReadResult where
  | training (t : Training)
  | errString (s : String)
deriving DecidableEq, Repr

/-- `read_package`: looks the workout code up in the fixed mapping and
spreads `data` positionally into the variant constructor.  A `KeyError`
(unknown code) is caught and turned into a plain string; a `TypeError`
(argument count mismatch in the constructor call) propagates. -/
def read_package (workout_type : String) (data : List ℚ) :
    Except PyErr ReadResult :=
  if workout_type = "SWM" then
    match data with
    | [a, d, w, lp, cp] => .ok (.training (.Swimming a d w lp cp))
    | _ => .error .typeError
  else if workout_type = "RUN" then
    match data with
    | [a, d, w] => .ok (.training (.Running a d w))
    | _ => .error .typeError
  else if workout_type = "WLK" then
    match data with
    | [a, d, w, h] => .ok (.training (.SportsWalking a d w h))
    | _ => .error .typeError
  else .ok (.errString "Такой тренировки нет!")

/-- Replace the `action` field, keeping every other field fixed. -/
def Training.set_action : Training → ℚ → Training
  | .Base _ d w, a => .Base a d w
  | .Running _ d w, a => .Running a d w
  | .SportsWalking _ d w h, a => .SportsWalking a d w h
  | .Swimming _ d w lp cp, a => .Swimming a d w lp cp

/-- C1: for every `SportsWalking` instance with `height ≠ 0` and
`duration ≠ 0`, `get_spent_calories` returns
`(0.035·weight + floor(speed² / height)·0.029·weight)·duration·60` with
`speed = action·0.65/1000/duration`, the `speed²`-by-`height` division
being integer (floor) division. -/
theorem sportsWalking_calories_floor_div (a d w h : ℚ) (hh : h ≠ 0) (hd : d ≠ 0) :
    (Training.SportsWalking a d w h).get_spent_calories =
      .ok ((0.035 * w + ((⌊(a * 0.65 / 1000 / d) ^ 2 / h⌋ : ℤ) : ℚ) * 0.029 * w)
            * d * 60) := by
  simp [Training.get_spent_calories, Training.get_mean_speed,
        Training.get_distance, Training.action, Training.duration,
        fdiv, ffloordiv, hh, hd, LEN_STEP, M_IN_KM,
        TOTTALLY_MINUTES_IN_HOURS, COEFF_CALORIE_WALK_1,
        COEFF_CALORIE_WALK_2, COEFF_CALORIE_WALK_3]
  rfl

/-- C1 witness: at `SportsWalking(9000, 1, 75, 180)` the formula applies,
and the floor-divided term makes the result exactly `157.5`
(a float-division port would give a different value). -/
theorem sportsWalking_calories_floor_div_witness :
    (180 : ℚ) ≠ 0 ∧ (1 : ℚ) ≠ 0 ∧
    (Training.SportsWalking 9000 1 75 180).get_spent_calories =
      .ok ((0.035 * 75 +
            ((⌊((9000 : ℚ) * 0.65 / 1000 / 1) ^ 2 / 180⌋ : ℤ) : ℚ) * 0.029 * 75)
            * 1 * 60) ∧
    (Training.SportsWalking 9000 1 75 180).get_spent_calories = .ok (315 / 2) :=
  ⟨by norm_num, by norm_num,
   sportsWalking_calories_floor_div 9000 1 75 180 (by norm_num) (by norm_num),
   by with_unfolding_all rfl⟩

/-- C2: for every `Running` instance with `duration ≠ 0`,
`get_spent_calories` returns `(18·speed − 20)·weight/1000·duration·60`
with `speed = action·0.65/1000/duration`. -/
theorem running_calories_formula (a d w : ℚ) (hd : d ≠ 0) :
    (Training.Running a d w).get_spent_calories =
      .ok ((18 * (a * 0.65 / 1000 / d) - 20) * w / 1000 * d * 60) := by
  simp [Training.get_spent_calories, Training.get_mean_speed,
        Training.get_distance, Training.action, Training.duration,
        fdiv, hd, LEN_STEP, M_IN_KM, TOTTALLY_MINUTES_IN_HOURS,
        COEFF_CALORIE_RUN_1, COEFF_CALORIE_RUN_2]

/-- C2 witness: at `Running(15000, 1, 75)` the formula applies; the
distance is `9.75` km, the mean speed is `9.75` km/h, and the calories
equal `(18×9.75−20)×75/1000×1×60 = 699.75`. -/
theorem running_calories_formula_witness :
    (1 : ℚ) ≠ 0 ∧
    (Training.Running 15000 1 75).get_spent_calories =
      .ok ((18 * ((15000 : ℚ) * 0.65 / 1000 / 1) - 20) * 75 / 1000 * 1 * 60) ∧
    (Training.Running 15000 1 75).get_distance = 9.75 ∧
    (Training.Running 15000 1 75).get_mean_speed = .ok 9.75 ∧
    (Training.Running 15000 1 75).get_spent_calories =
      .ok ((18 * 9.75 - 20) * 75 / 1000 * 1 * 60) :=
  ⟨by norm_num, running_calories_formula 15000 1 75 (by norm_num),
   by with_unfolding_all rfl, by with_unfolding_all rfl,
   by with_unfolding_all rfl⟩

/-- C3: for every `Swimming` instance with `duration ≠ 0`: `get_distance`
returns `action·1.38/1000` (its own step constant), `get_mean_speed`
returns `length_pool·count_pool/1000/duration`, and `get_spent_calories`
returns `(speed + 1.1)·2·weight`. -/
theorem swimming_formulas (a d w lp cp : ℚ) (hd : d ≠ 0) :
    (Training.Swimming a d w lp cp).get_distance = a * 1.38 / 1000 ∧
    (Training.Swimming a d w lp cp).get_mean_speed =
      .ok (lp * cp / 1000 / d) ∧
    (Training.Swimming a d w lp cp).get_spent_calories =
      .ok ((lp * cp / 1000 / d + 1.1) * 2 * w) := by
  refine ⟨?_, ?_, ?_⟩ <;>
  simp [Training.get_distance, Training.get_mean_speed,
        Training.get_spent_calories, fdiv, hd, SWIMMING_LEN_STEP, M_IN_KM,
        COEFF_CALORIE_SWIM_1, COEFF_CALORIE_SWIM_2]

/-- C3 witness: at `Swimming(720, 1, 80, 25, 40)` the formulas apply; the
distance rendered to 3 decimals is `"0.994"` km, the speed is `1.0` km/h,
and the calories are `336.0`. -/
theorem swimming_formulas_witness :
    (1 : ℚ) ≠ 0 ∧
    ((Training.Swimming 720 1 80 25 40).get_distance = (720 : ℚ) * 1.38 / 1000 ∧
     (Training.Swimming 720 1 80 25 40).get_mean_speed =
       .ok ((25 : ℚ) * 40 / 1000 / 1) ∧
     (Training.Swimming 720 1 80 25 40).get_spent_calories =
       .ok (((25 : ℚ) * 40 / 1000 / 1 + 1.1) * 2 * 80)) ∧
    format3 ((Training.Swimming 720 1 80 25 40).get_distance) = "0.994" ∧
    (Training.Swimming 720 1 80 25 40).get_mean_speed = .ok 1 ∧
    (Training.Swimming 720 1 80 25 40).get_spent_calories = .ok 336 :=
  ⟨by norm_num, swimming_formulas 720 1 80 25 40 (by norm_num),
   by with_unfolding_all rfl, by with_unfolding_all rfl,
   by with_unfolding_all rfl⟩

/-- Sequencing after a success reduces to the continuation. -/
theorem exceptBind_ok {α β : Type} (x : α) (f : α → Except PyErr β) :
    (do let s ← (Except.ok x : Except PyErr α); f s) = f x := rfl

/-- Sequencing after a raised exception propagates the exception. -/
theorem exceptBind_error {α β : Type} (e : PyErr) (f : α → Except PyErr β) :
    (do let s ← (Except.error e : Except PyErr α); f s) = Except.error e := rfl

/-- C4: for every code outside `{"SWM", "RUN", "WLK"}` and every data
list, `read_package` returns the plain error string
`"Такой тренировки нет!"`, which is a distinguishable outcome and never a
`Training` instance. -/
theorem read_package_unknown_code (code : String) (data : List ℚ)
    (h1 : code ≠ "SWM") (h2 : code ≠ "RUN") (h3 : code ≠ "WLK") :
    read_package code data = .ok (.errString "Такой тренировки нет!") ∧
    ∀ t : Training, read_package code data ≠ .ok (.training t) := by
  constructor
  · simp [read_package, h1, h2, h3]
  · intro t
    simp [read_package, h1, h2, h3]

/-- C4 witness: `read_package("XYZ", [1, 1, 1])` yields the error string
and no `Training` value. -/
theorem read_package_unknown_code_witness :
    (("XYZ" : String) ≠ "SWM" ∧ ("XYZ" : String) ≠ "RUN" ∧
     ("XYZ" : String) ≠ "WLK") ∧
    (read_package "XYZ" [1, 1, 1] = .ok (.errString "Такой тренировки нет!") ∧
     ∀ t : Training, read_package "XYZ" [1, 1, 1] ≠ .ok (.training t)) :=
  ⟨⟨by decide, by decide, by decide⟩,
   read_package_unknown_code "XYZ" [1, 1, 1] (by decide) (by decide) (by decide)⟩

set_option maxRecDepth 8000 in
/-- C5: for every `InfoMessage` carrying the default template,
`get_message` substitutes all five fields into the template, each float
field formatted to exactly three decimal places, reproducing the template
text byte for byte. -/
theorem get_message_template (t : String) (d di s c : ℚ) :
    ({ training_type := t, duration := d, distance := di, speed := s,
       calories := c : InfoMessage }).get_message =
      "Тип тренировки: " ++ (t ++ ("; Длительность: " ++ (format3 d ++
      (" ч.; Дистанция: " ++ (format3 di ++ (" км; Ср. скорость: " ++
      (format3 s ++ (" км/ч; Потрачено ккал: " ++ (format3 c ++
      "."))))))))) := by
  with_unfolding_all rfl

/-- C6: `get_spent_calories` on a bare base `Training` fails with the
not-implemented error, and no concrete variant ever produces that error —
it is the hierarchy's only explicit failure path. -/
theorem base_calories_not_implemented :
    (∀ a d w : ℚ,
      (Training.Base a d w).get_spent_calories = .error .notImplemented) ∧
    (∀ t : Training, (∀ a d w : ℚ, t ≠ .Base a d w) →
      t.get_spent_calories ≠ .error .notImplemented) := by
  constructor
  · intro a d w; rfl
  · intro t hbase
    cases t with
    | Base a d w => exact absurd rfl (hbase a d w)
    | Running a d w =>
        rcases eq_or_ne d 0 with hd | hd <;>
          simp [Training.get_spent_calories, Training.get_mean_speed,
                Training.get_distance, Training.action, Training.duration,
                fdiv, hd, exceptBind_ok, exceptBind_error]
    | SportsWalking a d w h =>
        rcases eq_or_ne d 0 with hd | hd <;>
          rcases eq_or_ne h 0 with hh | hh <;>
            simp [Training.get_spent_calories, Training.get_mean_speed,
                  Training.get_distance, Training.action, Training.duration,
                  fdiv, ffloordiv, hd, hh, exceptBind_ok, exceptBind_error]
    | Swimming a d w lp cp =>
        rcases eq_or_ne d 0 with hd | hd <;>
          simp [Training.get_spent_calories, Training.get_mean_speed, fdiv,
                hd, exceptBind_ok, exceptBind_error]

/-- C6 witness: the base instance `(1, 1, 70)` raises not-implemented,
while the concrete variant `Running(1, 1, 70)` does not. -/
theorem base_calories_not_implemented_witness :
    (Training.Base 1 1 70).get_spent_calories = .error .notImplemented ∧
    (Training.Running 1 1 70).get_spent_calories ≠ .error .notImplemented :=
  ⟨base_calories_not_implemented.1 1 1 70,
   base_calories_not_implemented.2 (Training.Running 1 1 70)
     (fun _ _ _ hx => Training.noConfusion hx)⟩

/-- C7: for every recognized code, a data list whose length does not match
the variant's constructor arity (3 for `Running`, 4 for `SportsWalking`,
5 for `Swimming`) makes `read_package` fail with the argument-count
(`TypeError`) construction error. -/
theorem read_package_arity_error (code : String) (data : List ℚ)
    (hcase : (code = "SWM" ∧ data.length ≠ 5) ∨
             (code = "RUN" ∧ data.length ≠ 3) ∨
             (code = "WLK" ∧ data.length ≠ 4)) :
    read_package code data = .error .typeError := by
  rcases hcase with ⟨hc, hl⟩ | ⟨hc, hl⟩ | ⟨hc, hl⟩ <;> subst hc <;>
    rcases data with _ | ⟨a, _ | ⟨b, _ | ⟨c, _ | ⟨e, _ | ⟨f, tl⟩⟩⟩⟩⟩ <;>
    simp_all [read_package]

/-- C7 witness: `read_package("RUN", [1, 1])` (missing weight) fails
explicitly with the argument-count error. -/
theorem read_package_arity_error_witness :
    (("RUN" : String) = "RUN" ∧ ([(1 : ℚ), 1] : List ℚ).length ≠ 3) ∧
    read_package "RUN" [1, 1] = .error .typeError :=
  ⟨⟨rfl, by decide⟩,
   read_package_arity_error "RUN" [1, 1] (.inr (.inl ⟨rfl, by decide⟩))⟩

/-- C8: every `Training` value constructed with `duration = 0` makes
`get_mean_speed` — and hence `show_training_info` — fail with the
division-by-zero error, for the base `distance/duration` formula and for
`Swimming`'s pool-geometry override alike. -/
theorem zero_duration_division_error (t : Training) (h : t.duration = 0) :
    t.get_mean_speed = .error .zeroDivision ∧
    t.show_training_info = .error .zeroDivision := by
  cases t <;>
    simp_all [Training.duration, Training.get_mean_speed,
              Training.show_training_info, Training.get_spent_calories,
              Training.get_distance, Training.action, fdiv,
              exceptBind_ok, exceptBind_error]

/-- C8 witness: `Running(100, 0, 70)` and `Swimming(720, 0, 80, 25, 40)`
both raise division by zero in mean speed and in the summary. -/
theorem zero_duration_division_error_witness :
    ((Training.Running 100 0 70).duration = 0 ∧
     (Training.Running 100 0 70).get_mean_speed = .error .zeroDivision ∧
     (Training.Running 100 0 70).show_training_info = .error .zeroDivision) ∧
    ((Training.Swimming 720 0 80 25 40).duration = 0 ∧
     (Training.Swimming 720 0 80 25 40).get_mean_speed = .error .zeroDivision ∧
     (Training.Swimming 720 0 80 25 40).show_training_info =
       .error .zeroDivision) :=
  ⟨⟨rfl, (zero_duration_division_error (Training.Running 100 0 70) rfl).1,
    (zero_duration_division_error (Training.Running 100 0 70) rfl).2⟩,
   ⟨rfl, (zero_duration_division_error (Training.Swimming 720 0 80 25 40) rfl).1,
    (zero_duration_division_error (Training.Swimming 720 0 80 25 40) rfl).2⟩⟩

/-- C9: with every other field (hence the step length) held fixed,
`get_distance` is strictly increasing in the `action` count, for every
variant. -/
theorem distance_strict_mono_in_action (t : Training) (a1 a2 : ℚ)
    (h : a1 < a2) :
    (t.set_action a1).get_distance < (t.set_action a2).get_distance := by
  cases t <;>
    simp only [Training.set_action, Training.get_distance, Training.action] <;>
    exact (div_lt_div_iff_of_pos_right (by norm_num [M_IN_KM])).mpr
      (mul_lt_mul_of_pos_right h
        (by norm_num [LEN_STEP, SWIMMING_LEN_STEP]))

/-- C9 witness: raising the action count from `1` to `2` on
`Running(·, 1, 70)` strictly increases the distance. -/
theorem distance_strict_mono_in_action_witness :
    (1 : ℚ) < 2 ∧
    ((Training.Running 0 1 70).set_action 1).get_distance <
      ((Training.Running 0 1 70).set_action 2).get_distance :=
  ⟨by norm_num,
   distance_strict_mono_in_action (Training.Running 0 1 70) 1 2 (by norm_num)⟩

/-- C10: a `SportsWalking` instance with `height = 0` (and any nonzero
duration) makes `get_spent_calories` fail with the division-by-zero
error, because `height` is the divisor of the floor-division term. -/
theorem sportsWalking_zero_height_error (a d w : ℚ) (hd : d ≠ 0) :
    (Training.SportsWalking a d w 0).get_spent_calories =
      .error .zeroDivision := by
  simp [Training.get_spent_calories, Training.get_mean_speed,
        Training.get_distance, Training.action, Training.duration, fdiv,
        ffloordiv, hd, exceptBind_ok, exceptBind_error]

/-- C10 witness: `SportsWalking(9000, 1, 75, 0)` raises division by zero
in the calorie computation. -/
theorem sportsWalking_zero_height_error_witness :
    (1 : ℚ) ≠ 0 ∧
    (Training.SportsWalking 9000 1 75 0).get_spent_calories =
      .error .zeroDivision :=
  ⟨by norm_num, sportsWalking_zero_height_error 9000 1 75 (by norm_num)⟩

end FitnessTracker
